import Mathlib

/-!
Verification of the semantic book-search application.

This file gives a shallow embedding, over exact rational arithmetic, of the
parts of the code that the specification talks about:

* the vector arithmetic used for similarity scoring (the external
  `cosine-similarity` library computes `dot a b / (norm a * norm b)`;
  we model the square root exactly on perfect squares and with a default of
  `0` elsewhere, which is exact on every concrete input used below);
* the ranking pipeline, the result-quality check, the replenishment branch,
  the request validation, the embedding back-fill loop and the search-log
  step of `src/app/api/search/route.ts`;
* the paging loop of `src/app/api/seed/route.ts`;
* the SQL function `search_books_by_similarity`;
* the summary endpoint `src/app/api/book-summary/route.ts`.

External effects (HTTP fetches, database reads and writes, the embedding
provider) are passed in as explicit oracle functions, so every theorem
quantifies over all possible outcomes of those calls.
-/

/-! ### Rational vector arithmetic -/

/-- Dot product of two vectors, pairing up to the shorter length. -/
def dotProduct (a b : List ℚ) : ℚ :=
  (List.zipWith (· * ·) a b).sum

/-- Squared Euclidean norm of a vector. -/
def normSq (v : List ℚ) : ℚ :=
  dotProduct v v

/-- Exact rational square root: returns the nonnegative square root when the
argument is the square of a rational, and `0` otherwise.  (The library being
modelled computes a real square root; all inputs appearing in the concrete
theorems below are perfect squares, where the two agree.) -/
def ratSqrt (q : ℚ) : ℚ :=
  if ((Nat.sqrt q.num.toNat : ℤ) * Nat.sqrt q.num.toNat = q.num ∧
      Nat.sqrt q.den * Nat.sqrt q.den = q.den) then
    (Nat.sqrt q.num.toNat : ℚ) / (Nat.sqrt q.den : ℚ)
  else 0

/-- Cosine similarity `dot a b / (norm a * norm b)` as computed by the
`cosine-similarity` npm package (division by zero yields `0` in this model). -/
def cosineSimilarity (a b : List ℚ) : ℚ :=
  dotProduct a b / (ratSqrt (normSq a) * ratSqrt (normSq b))

/-- pgvector cosine distance `a <=> b`, equal to one minus cosine similarity. -/
def cosineDistance (a b : List ℚ) : ℚ :=
  1 - cosineSimilarity a b

theorem zipWith_mul_self_sum_nonneg (v : List ℚ) :
    0 ≤ (List.zipWith (· * ·) v v).sum := by
  induction v with
  | nil => simp
  | cons x xs ih =>
    simp only [List.zipWith_cons_cons, List.sum_cons]
    have : 0 ≤ x * x := mul_self_nonneg x
    linarith

theorem normSq_nonneg (v : List ℚ) : 0 ≤ normSq v :=
  zipWith_mul_self_sum_nonneg v

/-- Cauchy–Schwarz for list dot products. -/
theorem dotProduct_sq_le (a : List ℚ) : ∀ b : List ℚ,
    dotProduct a b ^ 2 ≤ normSq a * normSq b := by
  induction a with
  | nil =>
    intro b
    simp [dotProduct, normSq]
  | cons x xs ih =>
    intro b
    cases b with
    | nil =>
      simp only [dotProduct, normSq, List.zipWith_nil_right, List.sum_nil]
      have h1 := normSq_nonneg (x :: xs)
      simp only [normSq, dotProduct] at h1
      nlinarith [h1]
    | cons y ys =>
      have h := ih ys
      have hA := normSq_nonneg xs
      have hB := normSq_nonneg ys
      simp only [dotProduct, normSq, List.zipWith_cons_cons, List.sum_cons] at h hA hB ⊢
      set d := (List.zipWith (· * ·) xs ys).sum with hd
      set nA := (List.zipWith (· * ·) xs xs).sum with hnA
      set nB := (List.zipWith (· * ·) ys ys).sum with hnB
      -- key: x^2 * nB + y^2 * nA ≥ 2 * x * y * d
      have key : 2 * (x * y * d) ≤ x ^ 2 * nB + y ^ 2 * nA := by
        rcases le_or_lt (x * y * d) 0 with hneg | hpos
        · nlinarith [mul_nonneg (sq_nonneg x) hB, mul_nonneg (sq_nonneg y) hA]
        · have hsq : (2 * (x * y * d)) ^ 2 ≤ (x ^ 2 * nB + y ^ 2 * nA) ^ 2 := by
            nlinarith [sq_nonneg (x ^ 2 * nB - y ^ 2 * nA),
              mul_nonneg (mul_nonneg (sq_nonneg x) (sq_nonneg y)) (sub_nonneg.mpr h)]
          have hsum : 0 ≤ x ^ 2 * nB + y ^ 2 * nA := by
            have := mul_nonneg (sq_nonneg x) hB
            have := mul_nonneg (sq_nonneg y) hA
            linarith
          nlinarith [hsq, hsum]
      nlinarith [h, key]

theorem ratSqrt_nonneg (q : ℚ) : 0 ≤ ratSqrt q := by
  unfold ratSqrt
  split
  · positivity
  · exact le_refl 0

/-- When `ratSqrt` is nonzero it is an exact square root. -/
theorem ratSqrt_sq (q : ℚ) (h : ratSqrt q ≠ 0) : ratSqrt q ^ 2 = q := by
  unfold ratSqrt at h ⊢
  split at h
  · rename_i hcond
    obtain ⟨hn, hd⟩ := hcond
    split
    · have hdpos : (0 : ℚ) < (Nat.sqrt q.den : ℚ) := by
        have : q.den.sqrt * q.den.sqrt = q.den := hd
        have hdenpos := q.den_pos
        by_contra hle
        push_neg at hle
        have : (Nat.sqrt q.den : ℚ) = 0 := le_antisymm hle (by positivity)
        have hz : Nat.sqrt q.den = 0 := by exact_mod_cast this
        rw [hz] at hd
        simp at hd
        omega
      rw [div_pow]
      have hnum : ((Nat.sqrt q.num.toNat : ℚ)) ^ 2 = (q.num : ℚ) := by
        rw [sq]
        exact_mod_cast congrArg (fun z : ℤ => (z : ℚ)) hn
      have hden : ((Nat.sqrt q.den : ℚ)) ^ 2 = (q.den : ℚ) := by
        rw [sq]
        exact_mod_cast congrArg (fun n : ℕ => (n : ℚ)) hd
      rw [hnum, hden]
      exact Rat.num_div_den q
    · rename_i hcond2
      exact absurd ⟨hn, hd⟩ hcond2
  · exact absurd rfl h

/-- Cosine similarity always lies in the interval `[-1, 1]`. -/
theorem cosineSimilarity_bounds (a b : List ℚ) :
    -1 ≤ cosineSimilarity a b ∧ cosineSimilarity a b ≤ 1 := by
  unfold cosineSimilarity
  set sA := ratSqrt (normSq a) with hsA
  set sB := ratSqrt (normSq b) with hsB
  rcases eq_or_ne (sA * sB) 0 with hz | hnz
  · rw [hz, div_zero]
    constructor <;> norm_num
  · have hA0 : sA ≠ 0 := fun h => hnz (by rw [h, zero_mul])
    have hB0 : sB ≠ 0 := fun h => hnz (by rw [h, mul_zero])
    have hApos : 0 < sA := lt_of_le_of_ne (ratSqrt_nonneg _) (Ne.symm hA0)
    have hBpos : 0 < sB := lt_of_le_of_ne (ratSqrt_nonneg _) (Ne.symm hB0)
    have hD : 0 < sA * sB := mul_pos hApos hBpos
    have h2 : (dotProduct a b) ^ 2 ≤ (sA * sB) ^ 2 := by
      have e1 : sA ^ 2 = normSq a := ratSqrt_sq _ hA0
      have e2 : sB ^ 2 = normSq b := ratSqrt_sq _ hB0
      calc (dotProduct a b) ^ 2 ≤ normSq a * normSq b := dotProduct_sq_le a b
        _ = (sA * sB) ^ 2 := by rw [← e1, ← e2]; ring
    constructor
    · rw [le_div_iff₀ hD]
      nlinarith [h2, hD, sq_nonneg (dotProduct a b + sA * sB)]
    · rw [div_le_one hD]
      nlinarith [h2, hD, sq_nonneg (dotProduct a b - sA * sB)]

/-! ### The search route (`src/app/api/search/route.ts`)

The Supabase client returns the `embedding` column either as a JSON string or
as a JavaScript array; the route handles both.  `JSON.parse` is an external
builtin, so it is passed in as an oracle `parseVec` (returning `none` when
parsing throws). -/

namespace SearchRoute

/-- A stored embedding as seen by the route: string-encoded or array-encoded. -/
inductive EmbeddingVal where
  | str (s : String)
  | arr (v : List ℚ)
deriving DecidableEq

/-- A book row as returned to the route (`embedding` may be null/absent). -/
structure Book where
  gutenberg_id : ℤ
  title : String
  embedding : Option EmbeddingVal
deriving DecidableEq

/-- A book object with a computed `similarity` field.  The `embedding` field
models the optional `embedding` key of the JavaScript object; the final
response strips it by setting it to `none`. -/
structure ScoredBook where
  gutenberg_id : ℤ
  title : String
  embedding : Option EmbeddingVal
  similarity : ℚ
deriving DecidableEq

/-- JavaScript truthiness of the `embedding` field, as used by
`.filter(book => !!book.embedding)` (line 341-348): absent and the empty
string are falsy, every array and non-empty string is truthy. -/
def embeddingTruthy : Option EmbeddingVal → Bool
  | none => false
  | some (.str s) => !(s == "")
  | some (.arr _) => true

/-- The similarity computed in the `.map` stage (lines 349-376): a
string-encoded embedding is parsed (parse failure gives similarity `0`), an
array-encoded embedding is used directly, and any other format gives `0`. -/
def similarityOf (parseVec : String → Option (List ℚ)) (queryEmbedding : List ℚ)
    (b : Book) : ℚ :=
  match b.embedding with
  | some (.str s) =>
    match parseVec s with
    | some v => cosineSimilarity queryEmbedding v
    | none => 0
  | some (.arr v) => cosineSimilarity queryEmbedding v
  | none => 0

/-- Attach the similarity score, keeping every other field (`{ ...book, similarity }`). -/
def withSimilarity (parseVec : String → Option (List ℚ)) (queryEmbedding : List ℚ)
    (b : Book) : ScoredBook :=
  ⟨b.gutenberg_id, b.title, b.embedding, similarityOf parseVec queryEmbedding b⟩

/-- The ranking pipeline of lines 341-383: filter out rows without a truthy
embedding, attach similarity scores, sort descending by similarity (a stable
sort, as JavaScript array sort), truncate to the top 10, and strip the raw
embedding from each payload object. -/
def resultsWithSimilarity (parseVec : String → Option (List ℚ))
    (queryEmbedding : List ℚ) (results : List Book) : List ScoredBook :=
  ((((results.filter (fun b => embeddingTruthy b.embedding)).map
        (withSimilarity parseVec queryEmbedding)).mergeSort
      (fun a b => decide (b.similarity ≤ a.similarity))).take 10).map
    (fun r => { r with embedding := none })

/-- The per-row quality test inside `hasGoodResults` (lines 307-319): only a
string-encoded embedding that parses and has similarity above `0.15` counts. -/
def goodBook (parseVec : String → Option (List ℚ)) (queryEmbedding : List ℚ)
    (b : Book) : Bool :=
  match b.embedding with
  | some (.str s) =>
    match parseVec s with
    | some v => decide ((15 : ℚ) / 100 < cosineSimilarity queryEmbedding v)
    | none => false
  | _ => false

/-- `hasGoodResults` (lines 307-319): nonempty results with at least one row
passing the quality test. -/
def hasGoodResults (parseVec : String → Option (List ℚ)) (queryEmbedding : List ℚ)
    (results : List Book) : Bool :=
  decide (0 < results.length) && results.any (goodBook parseVec queryEmbedding)

/-- The post-search phase of the handler (lines 304-396), as a function of the
first search results and of the results of the re-run search after
replenishment: when quality is insufficient the re-run results are appended to
the original list (no deduplication) before ranking; an empty re-run returns
an empty result list. -/
def searchResponse (parseVec : String → Option (List ℚ)) (queryEmbedding : List ℚ)
    (results newResults : List Book) : List ScoredBook :=
  if hasGoodResults parseVec queryEmbedding results then
    resultsWithSimilarity parseVec queryEmbedding results
  else if newResults.isEmpty then []
  else resultsWithSimilarity parseVec queryEmbedding (results ++ newResults)

/-! #### Request validation (lines 241-298)

The body field `query` is modelled as an optional JavaScript value; `none`
means the field is absent (`undefined`).  The guard is
`!query || typeof query !== 'string'`. -/

/-- A JavaScript value as far as the validation guard can distinguish them. -/
inductive JsVal where
  | str (s : String)
  | num (n : ℚ)
  | boolean (b : Bool)
  | null
  | array
  | object
deriving DecidableEq

/-- JavaScript truthiness: `undefined`, `null`, `false`, `0` and the empty
string are falsy. -/
def jsTruthy : JsVal → Bool
  | .str s => !(s == "")
  | .num n => !(n == 0)
  | .boolean b => b
  | .null => false
  | .array => true
  | .object => true

def isStringVal : JsVal → Bool
  | .str _ => true
  | _ => false

/-- The guard of lines 264-270: `!query || typeof query !== 'string'`. -/
def queryInvalid : Option JsVal → Bool
  | none => true
  | some v => !(jsTruthy v) || !(isStringVal v)

/-- Where the handler goes after the checks of lines 241-298: an early
configuration error, an early 400 client error, or on to the embedding call of
line 292 (the first external call made with the query). -/
inductive PostStage where
  | configError (status : ℕ)
  | badRequest (status : ℕ)
  | embedQuery (query : String)
deriving DecidableEq

/-- Lines 241-298 of the handler: environment checks, body validation (400),
the repeated environment checks, then on to embedding the query. -/
def postValidate (hasOpenAIKey hasSupabaseCreds : Bool) (query : Option JsVal) :
    PostStage :=
  if !hasOpenAIKey then .configError 500
  else if !hasSupabaseCreds then .configError 500
  else if queryInvalid query then .badRequest 400
  else if !hasOpenAIKey then .configError 500
  else if !hasSupabaseCreds then .configError 500
  else .embedQuery (match query with | some (.str s) => s | _ => "")

/-! #### The embedding back-fill loop `generateAndStoreEmbeddings` (lines 97-137)

The OpenAI call and the Supabase update are oracles.  The trace records, in
loop order, every book an embedding call was attempted for and every
successful embedding write. -/

/-- Outcome of the `openai.embeddings.create` call for one book. -/
inductive EmbedOutcome where
  | ok (v : List ℚ)
  | fail
deriving DecidableEq

/-- Outcome of the Supabase `update` storing one embedding. -/
inductive StoreOutcome where
  | ok
  | err
deriving DecidableEq

/-- Trace and result of `generateAndStoreEmbeddings`. -/
structure GASResult where
  /-- books for which an embedding call was made, in order -/
  attempts : List Book
  /-- successful embedding writes `(book, vector)`, in order -/
  stored : List (Book × List ℚ)
  /-- the returned `booksWithEmbeddings` list -/
  output : List Book
deriving DecidableEq

/-- Lines 97-137: for each book try to embed; on an embedding exception the
book is pushed unchanged and the loop continues; on a store error the book is
dropped from the output and the loop continues; on success the updated book is
pushed.  Nothing is ever retried. -/
def generateAndStoreEmbeddings (embed : Book → EmbedOutcome)
    (store : Book → StoreOutcome) : List Book → GASResult
  | [] => ⟨[], [], []⟩
  | b :: rest =>
    let r := generateAndStoreEmbeddings embed store rest
    match embed b with
    | .fail => ⟨b :: r.attempts, r.stored, b :: r.output⟩
    | .ok v =>
      match store b with
      | .err => ⟨b :: r.attempts, r.stored, r.output⟩
      | .ok =>
        ⟨b :: r.attempts, (b, v) :: r.stored,
          { b with embedding := some (.arr v) } :: r.output⟩

/-! #### Search logging and the final response (lines 218-239 and 390-396) -/

/-- A `search_logs` row as built by `logSearch`. -/
structure SearchLogRow where
  query : String
  results_count : ℕ
  top_similarity : ℚ
  search_time_ms : ℤ
deriving DecidableEq

/-- Outcome of the Supabase insert in `logSearch`. -/
inductive InsertOutcome where
  | ok
  | err
deriving DecidableEq

/-- The final JSON response of the handler. -/
structure FinalResponse where
  status : ℕ
  results : List ScoredBook
deriving DecidableEq

/-- The row built at lines 220-225 and 391-392: the query text, the result
count, `resultsWithSimilarity[0]?.similarity || 0`, and the elapsed
milliseconds. -/
def searchLogRowOf (query : String) (ranked : List ScoredBook)
    (startTime now : ℤ) : SearchLogRow :=
  ⟨query, ranked.length, (ranked.head?.elim 0 ScoredBook.similarity), now - startTime⟩

/-- Lines 390-396: `logSearch` is called (its insert outcome is only logged,
never propagated) and then the ranked list is returned with status 200. -/
def respondWithResults (insert : SearchLogRow → InsertOutcome) (query : String)
    (startTime now : ℤ) (ranked : List ScoredBook) :
    InsertOutcome × FinalResponse :=
  (insert (searchLogRowOf query ranked startTime now), ⟨200, ranked⟩)

end SearchRoute

/-! ### The seed route (`src/app/api/seed/route.ts`), `fetchBooksFromAPI`
(lines 43-114)

The HTTP fetch of one catalog page is an oracle: `none` models a thrown fetch
error, a non-2xx status, or a JSON parse failure (all reach the `catch` and
break the loop); `some rs` models a parsed page with `results = rs`.  The
`while` loop is given explicit fuel; the claims below are about single loop
iterations, which the fuel does not affect. -/

namespace SeedRoute

/-- A raw catalog record, keyed by its catalog id. -/
structure GutBook where
  id : ℤ
  title : String
deriving DecidableEq

/-- One `while` iteration plus the rest of the loop (lines 59-110):
stop when enough books are collected; on a fetch failure break with what has
been collected; on an empty page break; otherwise keep the records whose id is
not yet in the store (up to the remaining budget), and either advance to the
next page (all records already known, or a full page) or finish (short page
with at least one new record). -/
def fetchBooksLoop (fetchPage : ℕ → Option (List GutBook)) (existingIds : List ℤ)
    (totalBooks limit : ℕ) : ℕ → List GutBook → ℕ → List GutBook
  | 0, allBooks, _ => allBooks
  | fuel + 1, allBooks, page =>
    if totalBooks ≤ allBooks.length then allBooks
    else
      match fetchPage page with
      | none => allBooks
      | some results =>
        if results.isEmpty then allBooks
        else
          let newBooks := results.filter (fun b => !(existingIds.contains b.id))
          let allBooks2 := allBooks ++ newBooks.take (totalBooks - allBooks.length)
          if newBooks.isEmpty then
            fetchBooksLoop fetchPage existingIds totalBooks limit fuel allBooks2 (page + 1)
          else if results.length < limit then allBooks2
          else fetchBooksLoop fetchPage existingIds totalBooks limit fuel allBooks2 (page + 1)

end SeedRoute

/-! ### The database function `search_books_by_similarity`
(`complete-security-fix.sql`)

```
SELECT ..., 1 - (b.embedding <=> query_embedding) AS similarity
FROM public.books b
WHERE b.embedding IS NOT NULL
  AND 1 - (b.embedding <=> query_embedding) > match_threshold
ORDER BY b.embedding <=> query_embedding
LIMIT match_count;
```
-/

namespace Db

/-- A row of the `books` table (the columns the function reads). -/
structure BookRow where
  id : ℤ
  gutenberg_id : ℤ
  title : String
  embedding : Option (List ℚ)
deriving DecidableEq

/-- A returned row: the book columns plus the computed `similarity`. -/
structure SimRow where
  row : BookRow
  similarity : ℚ
deriving DecidableEq

/-- The sort key `b.embedding <=> query_embedding` (cosine distance). -/
def rowDistance (query : List ℚ) (b : BookRow) : ℚ :=
  cosineDistance (b.embedding.getD []) query

/-- The SQL function: filter to non-null embeddings above the similarity
threshold, order by ascending cosine distance, limit to `match_count`, and
project each row with `similarity = 1 - distance`. -/
def search_books_by_similarity (books : List BookRow) (query_embedding : List ℚ)
    (match_threshold : ℚ) (match_count : ℕ) : List SimRow :=
  (((books.filter (fun b =>
        b.embedding.isSome &&
          decide (match_threshold < 1 - rowDistance query_embedding b))).mergeSort
      (fun a b => decide (rowDistance query_embedding a ≤ rowDistance query_embedding b))).take
    match_count).map (fun b => ⟨b, 1 - rowDistance query_embedding b⟩)

end Db

/-! ### The book-summary route (`src/app/api/book-summary/route.ts`)

The upstream Gutendex call is an oracle covering every failure mode the route
distinguishes.  The disclaimer-stripping step (two regular-expression
replacements followed by a trim, applied to a found summary) uses the
JavaScript regex engine and is passed in as a function. -/

namespace BookSummary

/-- A book object of the upstream payload (only `summaries` is read). -/
structure BookJson where
  summaries : Option (List String)
deriving DecidableEq

/-- Outcome of the upstream fetch: a thrown fetch error, a non-2xx response, a
JSON body that fails to parse, or a parsed payload with its optional
`results` array. -/
inductive Upstream where
  | fetchError
  | httpError (status : ℕ)
  | badJson
  | payload (results : Option (List BookJson))
deriving DecidableEq

/-- The endpoint response: a 400 for a missing id, or the JSON body
`{ success, summary, hasSummary }` with status 200. -/
inductive SummaryResponse where
  | badRequest (status : ℕ)
  | summaryJson (success : Bool) (summary : Option String) (hasSummary : Bool)
      (status : ℕ)
deriving DecidableEq

/-- The `GET` handler (lines 7-105 of the current route): every upstream
failure mode, and a payload without a matching book, returns the graceful
`{ success: true, summary: null, hasSummary: false }` with status 200. -/
def GET (clean : String → String) (bookId : Option String) (up : Upstream) :
    SummaryResponse :=
  match bookId with
  | none => .badRequest 400
  | some _ =>
    match up with
    | .fetchError => .summaryJson true none false 200
    | .httpError _ => .summaryJson true none false 200
    | .badJson => .summaryJson true none false 200
    | .payload none => .summaryJson true none false 200
    | .payload (some []) => .summaryJson true none false 200
    | .payload (some (b :: _)) =>
      match b.summaries with
      | some (s :: _) => .summaryJson true (some (clean s)) (!(clean s == "")) 200
      | _ => .summaryJson true none false 200

/-- The upstream outcomes that count as failures for the claim: fetch error,
non-2xx status, malformed JSON, or no matching book in the payload. -/
def upstreamFailed : Upstream → Bool
  | .fetchError => true
  | .httpError _ => true
  | .badJson => true
  | .payload none => true
  | .payload (some l) => l.isEmpty

end BookSummary

/-! ### Evaluation helpers for concrete inputs -/

theorem ratSqrt_one : ratSqrt 1 = 1 := by
  unfold ratSqrt
  norm_num

theorem dotProduct_single (x y : ℚ) : dotProduct [x] [y] = x * y := by
  simp [dotProduct]

theorem cosineSimilarity_one_negOne : cosineSimilarity [1] [-1] = -1 := by
  unfold cosineSimilarity normSq
  simp only [dotProduct_single]
  norm_num [ratSqrt_one]

theorem cosineSimilarity_one_one : cosineSimilarity [1] [1] = 1 := by
  unfold cosineSimilarity normSq
  simp only [dotProduct_single]
  norm_num [ratSqrt_one]

namespace SearchRoute

theorem similarityOf_bounds (parseVec : String → Option (List ℚ))
    (queryEmbedding : List ℚ) (b : Book) :
    -1 ≤ similarityOf parseVec queryEmbedding b ∧
      similarityOf parseVec queryEmbedding b ≤ 1 := by
  rcases hb : b.embedding with _ | (s | v)
  · simp only [similarityOf, hb]
    norm_num
  · simp only [similarityOf, hb]
    cases parseVec s with
    | none => norm_num
    | some v => exact cosineSimilarity_bounds _ _
  · simp only [similarityOf, hb]
    exact cosineSimilarity_bounds _ _

/-- The comparator used by the ranking sort. -/
theorem rankLe_trans (a b c : ScoredBook)
    (h1 : decide (b.similarity ≤ a.similarity) = true)
    (h2 : decide (c.similarity ≤ b.similarity) = true) :
    decide (c.similarity ≤ a.similarity) = true := by
  simp only [decide_eq_true_eq] at h1 h2 ⊢
  exact le_trans h2 h1

end SearchRoute

/-- **C1.** For every query embedding and every list of rows returned by the
vector search, the response body computed by the ranking pipeline has at most
10 entries, is sorted in descending order of `similarity`, every similarity
value lies in `[-1, 1]` (similarity is a cosine, or the fallback `0` on an
unparsable embedding, so it can be negative — see the counterexample), and no
result object carries a raw embedding vector. -/
theorem search_results_ranked_capped_stripped
    (parseVec : String → Option (List ℚ)) (queryEmbedding : List ℚ)
    (results : List SearchRoute.Book) :
    (SearchRoute.resultsWithSimilarity parseVec queryEmbedding results).length ≤ 10 ∧
    ((SearchRoute.resultsWithSimilarity parseVec queryEmbedding results).map
        SearchRoute.ScoredBook.similarity).Sorted (· ≥ ·) ∧
    (∀ r ∈ SearchRoute.resultsWithSimilarity parseVec queryEmbedding results,
      -1 ≤ r.similarity ∧ r.similarity ≤ 1) ∧
    (∀ r ∈ SearchRoute.resultsWithSimilarity parseVec queryEmbedding results,
      r.embedding = none) := by
  unfold SearchRoute.resultsWithSimilarity
  set base := (results.filter (fun b => SearchRoute.embeddingTruthy b.embedding)).map
    (SearchRoute.withSimilarity parseVec queryEmbedding) with hbase
  set sorted := base.mergeSort (fun a b => decide (b.similarity ≤ a.similarity)) with hsorted
  refine ⟨?_, ?_, ?_, ?_⟩
  · rw [List.length_map, List.length_take]
    exact min_le_left _ _
  · have hpair : sorted.Pairwise (fun a b => decide (b.similarity ≤ a.similarity)) := by
      refine List.sorted_mergeSort ?_ ?_ base
      · exact SearchRoute.rankLe_trans
      · intro a b
        rcases le_total b.similarity a.similarity with h | h <;> simp [h]
    have htake : (sorted.take 10).Pairwise
        (fun a b : SearchRoute.ScoredBook => decide (b.similarity ≤ a.similarity)) :=
      hpair.sublist (List.take_sublist 10 sorted)
    rw [List.map_map]
    unfold List.Sorted
    rw [List.pairwise_map]
    refine htake.imp ?_
    intro a b h
    simpa using h
  · intro r hr
    rw [List.mem_map] at hr
    obtain ⟨r1, hr1, hstrip⟩ := hr
    have hr2 : r1 ∈ sorted := List.mem_of_mem_take hr1
    rw [hsorted, List.mem_mergeSort, hbase, List.mem_map] at hr2
    obtain ⟨b, _, hb⟩ := hr2
    have hsim : r.similarity = SearchRoute.similarityOf parseVec queryEmbedding b := by
      rw [← hstrip, ← hb]
      rfl
    rw [hsim]
    exact SearchRoute.similarityOf_bounds parseVec queryEmbedding b
  · intro r hr
    rw [List.mem_map] at hr
    obtain ⟨r1, _, hstrip⟩ := hr
    rw [← hstrip]

/-- **C1, counterexample to the claim as stated.**  A store can hold a vector
pointing away from the query vector; the computed similarity is then `-1`,
which is not in `[0, 1]`. -/
theorem search_results_similarity_below_zero :
    (SearchRoute.resultsWithSimilarity (fun _ => none) [1]
        [⟨7, "A", some (SearchRoute.EmbeddingVal.arr [-1])⟩]).map
      SearchRoute.ScoredBook.similarity = [-1] ∧
    ¬ (∀ r ∈ SearchRoute.resultsWithSimilarity (fun _ => none) [1]
        [⟨7, "A", some (SearchRoute.EmbeddingVal.arr [-1])⟩],
        0 ≤ r.similarity ∧ r.similarity ≤ 1) := by
  have heval : SearchRoute.resultsWithSimilarity (fun _ => none) [1]
      [⟨7, "A", some (SearchRoute.EmbeddingVal.arr [-1])⟩] =
      [⟨7, "A", none, -1⟩] := by
    unfold SearchRoute.resultsWithSimilarity
    simp [SearchRoute.embeddingTruthy, SearchRoute.withSimilarity,
      SearchRoute.similarityOf, cosineSimilarity_one_negOne]
  rw [heval]
  constructor
  · rfl
  · intro h
    have := h ⟨7, "A", none, -1⟩ (by simp)
    norm_num at this

namespace Db

theorem distLe_trans (query : List ℚ) (a b c : BookRow)
    (h1 : decide (rowDistance query a ≤ rowDistance query b) = true)
    (h2 : decide (rowDistance query b ≤ rowDistance query c) = true) :
    decide (rowDistance query a ≤ rowDistance query c) = true := by
  simp only [decide_eq_true_eq] at h1 h2 ⊢
  exact le_trans h1 h2

end Db

/-- **C2.** The database-side similarity search, for every store state, query
vector, threshold and cap: every returned row comes from the store and has a
non-null embedding, the rows are ordered by descending similarity (equivalently
ascending cosine distance), at most `match_count` rows are returned, and each
row's reported similarity equals `1 - cosine_distance(stored_vector,
query_vector)`. -/
theorem search_books_by_similarity_spec (books : List Db.BookRow)
    (query_embedding : List ℚ) (match_threshold : ℚ) (match_count : ℕ) :
    (∀ r ∈ Db.search_books_by_similarity books query_embedding match_threshold
        match_count, r.row ∈ books ∧ r.row.embedding ≠ none) ∧
    ((Db.search_books_by_similarity books query_embedding match_threshold
        match_count).map Db.SimRow.similarity).Sorted (· ≥ ·) ∧
    (Db.search_books_by_similarity books query_embedding match_threshold
        match_count).length ≤ match_count ∧
    (∀ r ∈ Db.search_books_by_similarity books query_embedding match_threshold
        match_count, ∃ e, r.row.embedding = some e ∧
          r.similarity = 1 - cosineDistance e query_embedding) := by
  unfold Db.search_books_by_similarity
  set kept := books.filter (fun b =>
    b.embedding.isSome &&
      decide (match_threshold < 1 - Db.rowDistance query_embedding b)) with hkept
  set sorted := kept.mergeSort (fun a b =>
    decide (Db.rowDistance query_embedding a ≤ Db.rowDistance query_embedding b))
    with hsorted
  have hmemrow : ∀ b ∈ sorted.take match_count,
      b ∈ books ∧ b.embedding.isSome = true := by
    intro b hb
    have hb2 : b ∈ sorted := List.mem_of_mem_take hb
    rw [hsorted, List.mem_mergeSort, hkept, List.mem_filter] at hb2
    obtain ⟨hmem, hcond⟩ := hb2
    rw [Bool.and_eq_true] at hcond
    exact ⟨hmem, hcond.1⟩
  refine ⟨?_, ?_, ?_, ?_⟩
  · intro r hr
    rw [List.mem_map] at hr
    obtain ⟨b, hb, hproj⟩ := hr
    obtain ⟨hmem, hsome⟩ := hmemrow b hb
    constructor
    · rw [← hproj]
      exact hmem
    · rw [← hproj]
      simp only []
      intro hnone
      rw [hnone] at hsome
      simp at hsome
  · have hpair : sorted.Pairwise (fun a b =>
        decide (Db.rowDistance query_embedding a ≤ Db.rowDistance query_embedding b)) := by
      refine List.sorted_mergeSort ?_ ?_ kept
      · exact Db.distLe_trans query_embedding
      · intro a b
        rcases le_total (Db.rowDistance query_embedding a)
          (Db.rowDistance query_embedding b) with h | h <;> simp [h]
    have htake : (sorted.take match_count).Pairwise (fun a b : Db.BookRow =>
        decide (Db.rowDistance query_embedding a ≤ Db.rowDistance query_embedding b)) :=
      hpair.sublist (List.take_sublist match_count sorted)
    rw [List.map_map]
    unfold List.Sorted
    rw [List.pairwise_map]
    refine htake.imp ?_
    intro a b h
    simp only [decide_eq_true_eq] at h
    simp only [Function.comp_apply]
    linarith
  · rw [List.length_map, List.length_take]
    exact min_le_left _ _
  · intro r hr
    rw [List.mem_map] at hr
    obtain ⟨b, hb, hproj⟩ := hr
    obtain ⟨_, hsome⟩ := hmemrow b hb
    rw [Option.isSome_iff_exists] at hsome
    obtain ⟨e, he⟩ := hsome
    refine ⟨e, ?_, ?_⟩
    · rw [← hproj]
      exact he
    · rw [← hproj]
      simp only [Db.rowDistance]
      rw [he]
      rfl

/-- **C3, counterexample to the claim as stated.**  A whitespace-only query (a
single space) is truthy in JavaScript and is a string, so the guard
`!query || typeof query !== 'string'` does not fire: the request is *not*
rejected with a 400 and proceeds to the embedding call. -/
theorem whitespace_query_not_rejected :
    (∀ c ∈ (" " : String).data, c = ' ') ∧ (" " : String) ≠ "" ∧
    SearchRoute.postValidate true true (some (SearchRoute.JsVal.str " ")) =
      SearchRoute.PostStage.embedQuery " " := by
  refine ⟨?_, ?_, ?_⟩
  · decide
  · decide
  · rfl

/-- **C3, amended.**  Every request whose query field is rejected by the guard
`!query || typeof query !== 'string'` — in particular the empty-string query,
a missing query, and any non-string query — receives a 400 client error from
the validation stage, before the embedding call (and before any store
access); whitespace-only non-empty queries are not rejected. -/
theorem invalid_query_rejected_before_embedding
    (query : Option SearchRoute.JsVal)
    (h : SearchRoute.queryInvalid query = true) :
    SearchRoute.postValidate true true query =
      SearchRoute.PostStage.badRequest 400 := by
  unfold SearchRoute.postValidate
  simp [h]

/-- Witness: the empty-string query is rejected with a 400. -/
theorem invalid_query_rejected_before_embedding_witness :
    SearchRoute.queryInvalid (some (SearchRoute.JsVal.str "")) = true ∧
    SearchRoute.postValidate true true (some (SearchRoute.JsVal.str "")) =
      SearchRoute.PostStage.badRequest 400 :=
  ⟨rfl, invalid_query_rejected_before_embedding _ rfl⟩

/-- **C4.**  The quality check computes a similarity only for rows whose
embedding is a JSON string: whenever every returned row's embedding is absent
or array-encoded, `hasGoodResults` is `false`, so the handler takes the
replenishment branch regardless of the rows' actual similarity to the query
vector. -/
theorem no_string_embedding_triggers_replenish
    (parseVec : String → Option (List ℚ)) (queryEmbedding : List ℚ)
    (results : List SearchRoute.Book)
    (h : ∀ b ∈ results, ∀ s, b.embedding ≠ some (SearchRoute.EmbeddingVal.str s)) :
    SearchRoute.hasGoodResults parseVec queryEmbedding results = false := by
  unfold SearchRoute.hasGoodResults
  have hany : results.any (SearchRoute.goodBook parseVec queryEmbedding) = false := by
    rw [List.any_eq_false]
    intro b hb
    rcases he : b.embedding with _ | (s | v)
    · simp [SearchRoute.goodBook, he]
    · exact absurd he (h b hb s)
    · simp [SearchRoute.goodBook, he]
  simp [hany]

/-- Witness: a single row whose array-encoded embedding coincides with the
query vector (cosine similarity exactly `1`) is still classified as
insufficient. -/
theorem no_string_embedding_triggers_replenish_witness :
    cosineSimilarity [1] [1] = 1 ∧
    SearchRoute.hasGoodResults (fun _ => none) [1]
      [⟨1533, "Macbeth", some (SearchRoute.EmbeddingVal.arr [1])⟩] = false :=
  ⟨cosineSimilarity_one_one,
    no_string_embedding_triggers_replenish (fun _ => none) [1]
      [⟨1533, "Macbeth", some (SearchRoute.EmbeddingVal.arr [1])⟩]
      (by intro b hb s; simp at hb; rw [hb]; simp)⟩

/-- **C5.**  The re-run results are appended to the original list with no
deduplication by catalog id: in a store state where the re-run
similarity search returns the same book that the first search already
returned, the final ranked response lists catalog id 1533 twice. -/
theorem replenished_results_can_duplicate :
    (SearchRoute.searchResponse (fun _ => none) [1]
        [⟨1533, "Macbeth", some (SearchRoute.EmbeddingVal.arr [1])⟩]
        [⟨1533, "Macbeth", some (SearchRoute.EmbeddingVal.arr [1])⟩]).map
      SearchRoute.ScoredBook.gutenberg_id = [1533, 1533] ∧
    ¬ ((SearchRoute.searchResponse (fun _ => none) [1]
        [⟨1533, "Macbeth", some (SearchRoute.EmbeddingVal.arr [1])⟩]
        [⟨1533, "Macbeth", some (SearchRoute.EmbeddingVal.arr [1])⟩]).map
      SearchRoute.ScoredBook.gutenberg_id).Nodup := by
  have hbad : SearchRoute.hasGoodResults (fun _ => none) [1]
      [⟨1533, "Macbeth", some (SearchRoute.EmbeddingVal.arr [1])⟩] = false := by
    simp [SearchRoute.hasGoodResults, SearchRoute.goodBook]
  have hresp : SearchRoute.searchResponse (fun _ => none) [1]
      [⟨1533, "Macbeth", some (SearchRoute.EmbeddingVal.arr [1])⟩]
      [⟨1533, "Macbeth", some (SearchRoute.EmbeddingVal.arr [1])⟩] =
      SearchRoute.resultsWithSimilarity (fun _ => none) [1]
        [⟨1533, "Macbeth", some (SearchRoute.EmbeddingVal.arr [1])⟩,
         ⟨1533, "Macbeth", some (SearchRoute.EmbeddingVal.arr [1])⟩] := by
    unfold SearchRoute.searchResponse
    rw [hbad]
    rfl
  have hbase : ([⟨1533, "Macbeth", some (SearchRoute.EmbeddingVal.arr [1])⟩,
      ⟨1533, "Macbeth", some (SearchRoute.EmbeddingVal.arr [1])⟩] :
        List SearchRoute.Book).filter
        (fun b => SearchRoute.embeddingTruthy b.embedding) =
      [⟨1533, "Macbeth", some (SearchRoute.EmbeddingVal.arr [1])⟩,
       ⟨1533, "Macbeth", some (SearchRoute.EmbeddingVal.arr [1])⟩] := by
    simp [SearchRoute.embeddingTruthy]
  have hmapped : ([⟨1533, "Macbeth", some (SearchRoute.EmbeddingVal.arr [1])⟩,
      ⟨1533, "Macbeth", some (SearchRoute.EmbeddingVal.arr [1])⟩] :
        List SearchRoute.Book).map
        (SearchRoute.withSimilarity (fun _ => none) [1]) =
      [⟨1533, "Macbeth", some (SearchRoute.EmbeddingVal.arr [1]), 1⟩,
       ⟨1533, "Macbeth", some (SearchRoute.EmbeddingVal.arr [1]), 1⟩] := by
    simp [SearchRoute.withSimilarity, SearchRoute.similarityOf,
      cosineSimilarity_one_one]
  have hsorted : ([⟨1533, "Macbeth", some (SearchRoute.EmbeddingVal.arr [1]), 1⟩,
      ⟨1533, "Macbeth", some (SearchRoute.EmbeddingVal.arr [1]), 1⟩] :
        List SearchRoute.ScoredBook).mergeSort
        (fun a b => decide (b.similarity ≤ a.similarity)) =
      [⟨1533, "Macbeth", some (SearchRoute.EmbeddingVal.arr [1]), 1⟩,
       ⟨1533, "Macbeth", some (SearchRoute.EmbeddingVal.arr [1]), 1⟩] := by
    set s : SearchRoute.ScoredBook :=
      ⟨1533, "Macbeth", some (SearchRoute.EmbeddingVal.arr [1]), 1⟩ with hs
    have hperm := List.mergeSort_perm [s, s]
      (fun a b : SearchRoute.ScoredBook => decide (b.similarity ≤ a.similarity))
    have hlen : (List.mergeSort [s, s]
        (fun a b : SearchRoute.ScoredBook => decide (b.similarity ≤ a.similarity))).length
        = 2 := by
      rw [hperm.length_eq]
      rfl
    have hmem : ∀ x ∈ List.mergeSort [s, s]
        (fun a b : SearchRoute.ScoredBook => decide (b.similarity ≤ a.similarity)),
        x = s := by
      intro x hx
      rw [List.mem_mergeSort] at hx
      simpa using hx
    have hrep := List.eq_replicate_of_mem hmem
    rw [hlen] at hrep
    rw [hrep]
    rfl
  rw [hresp]
  unfold SearchRoute.resultsWithSimilarity
  rw [hbase, hmapped, hsorted]
  constructor
  · rfl
  · decide

/-- **C6.**  One seeding iteration on a page whose records are all already in
the store: the loop adds none of that page's records (the collected list is
passed on unchanged) and continues with the page number incremented, instead
of looping on the same page. -/
theorem known_page_skipped_and_advanced
    (fetchPage : ℕ → Option (List SeedRoute.GutBook)) (existingIds : List ℤ)
    (totalBooks limit fuel : ℕ) (allBooks : List SeedRoute.GutBook) (page : ℕ)
    (results : List SeedRoute.GutBook)
    (hneed : allBooks.length < totalBooks)
    (hfetch : fetchPage page = some results)
    (hne : results ≠ [])
    (hall : ∀ b ∈ results, b.id ∈ existingIds) :
    SeedRoute.fetchBooksLoop fetchPage existingIds totalBooks limit
        (fuel + 1) allBooks page =
      SeedRoute.fetchBooksLoop fetchPage existingIds totalBooks limit
        fuel allBooks (page + 1) := by
  have hnew : results.filter (fun b => !(existingIds.contains b.id)) = [] := by
    rw [List.filter_eq_nil_iff]
    intro b hb
    simp [hall b hb]
  obtain ⟨hd, tl, rfl⟩ := List.exists_cons_of_ne_nil hne
  simp only [SeedRoute.fetchBooksLoop, hfetch]
  rw [if_neg (not_le.mpr hneed)]
  simp only [List.isEmpty_cons, Bool.false_eq_true, if_false, hnew,
    List.isEmpty_nil, List.take_nil, List.append_nil, if_true]

/-- **C7.**  In the coverage step `generateAndStoreEmbeddings`, for every
outcome of the embedding provider and of the store: every record of the batch
gets exactly one embedding attempt, in batch order — so a failure on one
record neither aborts the loop nor causes a retry — and an embedding is
written only for records whose embedding call and store update both
succeeded (a failing record is skipped: nothing is stored for it). -/
theorem embedding_failure_skips_record_no_retry
    (embed : SearchRoute.Book → SearchRoute.EmbedOutcome)
    (store : SearchRoute.Book → SearchRoute.StoreOutcome)
    (books : List SearchRoute.Book) :
    (SearchRoute.generateAndStoreEmbeddings embed store books).attempts = books ∧
    (∀ p ∈ (SearchRoute.generateAndStoreEmbeddings embed store books).stored,
      embed p.1 = SearchRoute.EmbedOutcome.ok p.2 ∧
        store p.1 = SearchRoute.StoreOutcome.ok) := by
  induction books with
  | nil =>
    refine ⟨rfl, ?_⟩
    intro p hp
    simp [SearchRoute.generateAndStoreEmbeddings] at hp
  | cons b rest ih =>
    obtain ⟨ih1, ih2⟩ := ih
    cases he : embed b with
    | fail =>
      refine ⟨?_, ?_⟩
      · simp [SearchRoute.generateAndStoreEmbeddings, he, ih1]
      · intro p hp
        simp only [SearchRoute.generateAndStoreEmbeddings, he] at hp
        exact ih2 p hp
    | ok v =>
      cases hs : store b with
      | err =>
        refine ⟨?_, ?_⟩
        · simp [SearchRoute.generateAndStoreEmbeddings, he, hs, ih1]
        · intro p hp
          simp only [SearchRoute.generateAndStoreEmbeddings, he, hs] at hp
          exact ih2 p hp
      | ok =>
        refine ⟨?_, ?_⟩
        · simp [SearchRoute.generateAndStoreEmbeddings, he, hs, ih1]
        · intro p hp
          simp only [SearchRoute.generateAndStoreEmbeddings, he, hs,
            List.mem_cons] at hp
          rcases hp with hp | hp
          · rw [hp]
            exact ⟨he, hs⟩
          · exact ih2 p hp

/-- **C8.**  After the ranked list is computed, the handler inserts a
`search_logs` row carrying exactly the query text, the result count, the top
similarity (`results[0]?.similarity || 0`) and the elapsed milliseconds; even
when that insert fails, the handler still returns the ranked list with
status 200 (the response does not depend on the insert outcome). -/
theorem log_insert_failure_does_not_fail_request
    (insert : SearchRoute.SearchLogRow → SearchRoute.InsertOutcome)
    (query : String) (startTime now : ℤ) (ranked : List SearchRoute.ScoredBook)
    (_h : insert ⟨query, ranked.length,
        ranked.head?.elim 0 SearchRoute.ScoredBook.similarity, now - startTime⟩ =
      SearchRoute.InsertOutcome.err) :
    (SearchRoute.respondWithResults insert query startTime now ranked).1 =
      insert ⟨query, ranked.length,
        ranked.head?.elim 0 SearchRoute.ScoredBook.similarity, now - startTime⟩ ∧
    (SearchRoute.respondWithResults insert query startTime now ranked).2 =
      ⟨200, ranked⟩ :=
  ⟨rfl, rfl⟩

/-- Witness: an insert that always fails still leaves the 200 response with
the ranked list intact. -/
theorem log_insert_failure_does_not_fail_request_witness :
    (SearchRoute.respondWithResults (fun _ => SearchRoute.InsertOutcome.err)
        "macbeth" 0 5 []).2 = ⟨200, []⟩ :=
  (log_insert_failure_does_not_fail_request
    (fun _ => SearchRoute.InsertOutcome.err) "macbeth" 0 5 [] rfl).2

/-- **C9.**  When the fetch of a page fails (thrown fetch error, non-2xx
status, or JSON failure — all reaching the `catch`), the seeding loop stops at
that page without retrying it and returns exactly the records collected from
the earlier pages. -/
theorem fetch_error_returns_collected
    (fetchPage : ℕ → Option (List SeedRoute.GutBook)) (existingIds : List ℤ)
    (totalBooks limit fuel : ℕ) (allBooks : List SeedRoute.GutBook) (page : ℕ)
    (hneed : allBooks.length < totalBooks)
    (hfetch : fetchPage page = none) :
    SeedRoute.fetchBooksLoop fetchPage existingIds totalBooks limit
        (fuel + 1) allBooks page = allBooks := by
  simp only [SeedRoute.fetchBooksLoop, hfetch]
  rw [if_neg (not_le.mpr hneed)]

/-- Witness for C6: a page holding only the already-known record 11 is
skipped whole and the loop proceeds to the next page. -/
theorem known_page_skipped_and_advanced_witness :
    ([] : List SeedRoute.GutBook).length < 2 ∧
    (fun _ : ℕ => some [(⟨11, "Alice"⟩ : SeedRoute.GutBook)]) 1 =
      some [(⟨11, "Alice"⟩ : SeedRoute.GutBook)] ∧
    ([(⟨11, "Alice"⟩ : SeedRoute.GutBook)] ≠ []) ∧
    (∀ b ∈ [(⟨11, "Alice"⟩ : SeedRoute.GutBook)], b.id ∈ [(11 : ℤ)]) ∧
    SeedRoute.fetchBooksLoop (fun _ => some [⟨11, "Alice"⟩]) [11] 2 32 1 [] 1 =
      SeedRoute.fetchBooksLoop (fun _ => some [⟨11, "Alice"⟩]) [11] 2 32 0 [] 2 :=
  ⟨by decide, rfl, by simp, by simp,
    known_page_skipped_and_advanced (fun _ => some [⟨11, "Alice"⟩]) [11] 2 32 0 [] 1
      [⟨11, "Alice"⟩] (by decide) rfl (by simp) (by simp)⟩

/-- Witness for C9: a failing fetch on the very first page returns the empty
collection. -/
theorem fetch_error_returns_collected_witness :
    ([] : List SeedRoute.GutBook).length < 2 ∧
    SeedRoute.fetchBooksLoop (fun _ => none) [] 2 32 1 [] 1 = [] :=
  ⟨by decide, fetch_error_returns_collected (fun _ => none) [] 2 32 0 [] 1
    (by decide) rfl⟩

/-- **C10.**  For every upstream failure mode of the summary endpoint — a
thrown fetch, a non-2xx status, malformed JSON, or a payload with no matching
book — the endpoint answers with the graceful
`{ success: true, summary: null, hasSummary: false }` body and status 200,
never an error response. -/
theorem upstream_failure_graceful_summary (clean : String → String)
    (id : String) (up : BookSummary.Upstream)
    (h : BookSummary.upstreamFailed up = true) :
    BookSummary.GET clean (some id) up =
      BookSummary.SummaryResponse.summaryJson true none false 200 := by
  cases up with
  | fetchError => rfl
  | httpError s => rfl
  | badJson => rfl
  | payload r =>
    cases r with
    | none => rfl
    | some l =>
      cases l with
      | nil => rfl
      | cons b rest => simp [BookSummary.upstreamFailed] at h

/-- Witness: a thrown upstream fetch yields the graceful empty summary. -/
theorem upstream_failure_graceful_summary_witness :
    BookSummary.upstreamFailed BookSummary.Upstream.fetchError = true ∧
    BookSummary.GET (fun s => s) (some "84") BookSummary.Upstream.fetchError =
      BookSummary.SummaryResponse.summaryJson true none false 200 :=
  ⟨rfl, upstream_failure_graceful_summary (fun s => s) "84"
    BookSummary.Upstream.fetchError rfl⟩
